import Mathlib

/-!
Verification development for the Challenge-Scroll repository.

The repository has two independent components:

* `TokenExchange.sol` — a settlement contract whose single operation
  `exchange` pulls the caller's input tokens, approves an external router,
  delegates an exact-input single-hop swap to it, and enforces a
  minimum-output guarantee;
* `index.ts` — a script that queries the 0x swap-aggregation API in a
  fixed sequence (liquidity sources, decimals, price, conditional
  approval, quote) and prints derived metrics.

The contract and the script are embedded below as executable Lean
functions over explicit state.  External collaborators (the ERC-20 token
contracts, the Uniswap-style router, the aggregation API) are not part of
the repository; they are modelled as environment parameters whose behavior
follows the standard interfaces the repository declares (`IERC20`,
`ISwapRouter`).  On-chain revert semantics (a failed `require` rolls back
every prior state change of the transaction) is the platform guarantee and
is encoded by `exchangePost`, which returns the pre-state whenever the
embedded call ends in an error.
-/

/-- An on-chain account or contract address. -/
abbrev Address := Nat

/-- The token-relevant on-chain state: per-token balances and per-token
allowances (token → owner → spender → amount), as in `IERC20`. -/
structure ChainState where
  balances : Address → Address → Nat
  allowances : Address → Address → Address → Nat

/-- Point update of a balance map at one (token, holder) pair. -/
def updBal (f : Address → Address → Nat) (t a : Address) (v : Nat) :
    Address → Address → Nat :=
  fun t' a' => if t' = t ∧ a' = a then v else f t' a'

/-- Point update of an allowance map at one (token, owner, spender) triple. -/
def updAllow (f : Address → Address → Address → Nat) (t o sp : Address) (v : Nat) :
    Address → Address → Address → Nat :=
  fun t' o' sp' => if t' = t ∧ o' = o ∧ sp' = sp then v else f t' o' sp'

/-- Internal balance movement of a standard ERC-20 token: debit `src`,
then credit `dst`, sequentially as token contracts update storage. -/
def erc20Transfer (s : ChainState) (t src dst : Address) (amt : Nat) : ChainState :=
  let b1 := updBal s.balances t src (s.balances t src - amt)
  let b2 := updBal b1 t dst (b1 t dst + amt)
  { s with balances := b2 }

/-- `IERC20.transferFrom` of a standard ERC-20 token, called by `spender`:
succeeds (returning `true`) iff the owner's allowance to the spender and
the owner's balance both cover `amt`; on success the allowance is
decremented and the balance moved, otherwise it reports failure and
changes nothing. -/
def erc20TransferFrom (s : ChainState) (t spender src dst : Address) (amt : Nat) :
    Bool × ChainState :=
  if amt ≤ s.allowances t src spender ∧ amt ≤ s.balances t src then
    let s' := erc20Transfer s t src dst amt
    (true, { s' with
      allowances := updAllow s'.allowances t src spender (s.allowances t src spender - amt) })
  else
    (false, s)

/-- `IERC20.approve` called by `owner`: a standard token sets the
allowance to exactly `amt` and returns `true`; a non-standard token may
refuse (the `refused` flag), returning `false` and changing nothing. -/
def erc20Approve (s : ChainState) (refused : Bool) (t owner sp : Address) (amt : Nat) :
    Bool × ChainState :=
  if refused then (false, s)
  else (true, { s with allowances := updAllow s.allowances t owner sp amt })

/-- `ISwapRouter.SwapSingleParams`, field for field. -/
structure SwapSingleParams where
  tokenFrom : Address
  tokenTo : Address
  feeRate : Nat
  recipient : Address
  deadline : Nat
  inputAmount : Nat
  minOutputAmount : Nat
  priceLimit : Nat
deriving DecidableEq, Repr

/-- The deployment environment of the settlement contract: the router and
contract addresses, the current block timestamp, the external router's
realized-output function, and which external tokens refuse `approve`. -/
structure ExchangeEnv where
  routerAddr : Address
  contractAddr : Address
  blockTimestamp : Nat
  quote : SwapSingleParams → Nat
  approveRefused : Address → Bool

/-- The external router's `swapExactInputSingle`, per the `ISwapRouter`
interface and spec §6: the router pulls `inputAmount` of `tokenFrom` from
its caller (the settlement contract) via the allowance it was granted,
pays the realized output of `tokenTo` from its own reserves to
`recipient`, and returns that output amount.  Either transfer failing
reverts the router call. -/
def swapExactInputSingle (env : ExchangeEnv) (s : ChainState) (p : SwapSingleParams) :
    Except String (Nat × ChainState) :=
  match erc20TransferFrom s p.tokenFrom env.routerAddr env.contractAddr env.routerAddr
      p.inputAmount with
  | (false, _) => .error "router: input transfer failed"
  | (true, s1) =>
    let out := env.quote p
    if out ≤ s1.balances p.tokenTo env.routerAddr then
      .ok (out, erc20Transfer s1 p.tokenTo env.routerAddr p.recipient out)
    else
      .error "router: insufficient reserve"

/-- The external calls `exchange` issues, in order, as observed at the
contract's boundary. -/
inductive ExtEvent where
  | transferFromCall (token src dst : Address) (amount : Nat)
  | approveCall (token sp : Address) (amount : Nat)
  | swapCall (p : SwapSingleParams)
deriving DecidableEq, Repr

/-- `TokenExchange.exchange` (TokenExchange.sol lines 145–175), statement
for statement: pull the input tokens from the caller (`require` with
reason "Token transfer failed"), approve the router for `inputAmount`
(`require` with reason "Approval failed"), build `SwapSingleParams` with
fee 3000, recipient `receiver`, deadline `block.timestamp`, price limit 0,
call the router, and `require` the output covers `minOutput` (reason
"Insufficient output").  Returns the post-state or the revert reason,
together with the trace of external calls made. -/
def TokenExchange.exchange (env : ExchangeEnv) (s : ChainState)
    (msgSender inputToken outputToken : Address) (inputAmount minOutput : Nat)
    (receiver : Address) : Except String ChainState × List ExtEvent :=
  let ev1 := ExtEvent.transferFromCall inputToken msgSender env.contractAddr inputAmount
  match erc20TransferFrom s inputToken env.contractAddr msgSender env.contractAddr
      inputAmount with
  | (false, _) => (.error "Token transfer failed", [ev1])
  | (true, s1) =>
    let ev2 := ExtEvent.approveCall inputToken env.routerAddr inputAmount
    match erc20Approve s1 (env.approveRefused inputToken) inputToken env.contractAddr
        env.routerAddr inputAmount with
    | (false, _) => (.error "Approval failed", [ev1, ev2])
    | (true, s2) =>
      let swapDetails : SwapSingleParams :=
        { tokenFrom := inputToken
          tokenTo := outputToken
          feeRate := 3000
          recipient := receiver
          deadline := env.blockTimestamp
          inputAmount := inputAmount
          minOutputAmount := minOutput
          priceLimit := 0 }
      let ev3 := ExtEvent.swapCall swapDetails
      match swapExactInputSingle env s2 swapDetails with
      | .error e => (.error e, [ev1, ev2, ev3])
      | .ok (outputAmount, s3) =>
        if minOutput ≤ outputAmount then (.ok s3, [ev1, ev2, ev3])
        else (.error "Insufficient output", [ev1, ev2, ev3])

/-- The state observable after the transaction: the EVM rolls back every
state change of a reverted call, so an error leaves the pre-state. -/
def exchangePost (env : ExchangeEnv) (s : ChainState)
    (msgSender inputToken outputToken : Address) (inputAmount minOutput : Nat)
    (receiver : Address) : ChainState :=
  match (TokenExchange.exchange env s msgSender inputToken outputToken inputAmount
      minOutput receiver).1 with
  | .ok s' => s'
  | .error _ => s

/-! ## The quote/execution script (`src/index.ts`) -/

/-- The Scroll chain id used by the script (`walletClient.chain.id`,
`scroll` from viem). -/
def scrollChainId : String := "534352"

/-- The WETH contract address hard-coded in `index.ts`. -/
def wethAddr : String := "0x5300000000000000000000000000000000000004"

/-- The wstETH contract address hard-coded in `index.ts`. -/
def wstEthAddr : String := "0xf610A9dfB7C89644979b4A0f27063E9e7d7Cda32"

/-- viem `maxUint256`, the amount the script approves. -/
def maxUint256 : Nat := 2 ^ 256 - 1

/-- viem `parseUnits "0.1" d`: 0.1 scaled by `10 ^ d`. -/
def amountToSell (wethDecimals : Nat) : Nat := 10 ^ wethDecimals / 10

/-- The query parameters of the price request (`priceQueryParams` in
`index.ts`), in insertion order. -/
def priceQueryParams (taker : String) (sellAmount : Nat) : List (String × String) :=
  [("chainId", scrollChainId),
   ("sellToken", wethAddr),
   ("buyToken", wstEthAddr),
   ("sellAmount", toString sellAmount),
   ("taker", taker),
   ("affiliateFee", "100"),
   ("surplusCollection", "true")]

/-- The query parameters of the quote request: `index.ts` starts from an
empty `URLSearchParams` and appends every entry of the price parameters in
order. -/
def quoteQueryParams (taker : String) (sellAmount : Nat) : List (String × String) :=
  (priceQueryParams taker sellAmount).foldl (fun acc kv => acc ++ [kv]) []

/-- The `issues.allowance` object of a price response, when non-null. -/
structure AllowanceIssue where
  spender : String
deriving DecidableEq, Repr

/-- The part of the price response the script's control flow reads. -/
structure PriceResp where
  allowanceIssue : Option AllowanceIssue
deriving DecidableEq, Repr

/-- The external world the script runs against: the outcome of each
blocking round trip.  `Except.error` models a rejected promise (a thrown
error) at that step. -/
structure ScriptWorld where
  sourcesResult : Except String (List String)
  decimalsResult : Except String Nat
  priceResult : Except String PriceResp
  approveResult : Except String String
  quoteResult : Except String Unit

/-- The script's observable external interactions and console milestones,
in order. -/
inductive ScriptEvent where
  | fetchSourcesReq (chainId : String)
  | readDecimalsReq (tokenAddr : String)
  | fetchPriceReq (params : List (String × String))
  | approveTxReq (tokenAddr sp : String) (amount : Nat)
  | logApproveErrorOut
  | fetchQuoteReq (params : List (String × String))
  | printMetricsOut
  | walletGetAddresses
deriving DecidableEq, Repr

/-- The conditional Permit2 approval block (`index.ts` lines 155–172):
when the price response reports an allowance issue the script attempts an
approval of `maxUint256` to the reported spender; a failure there is
caught and logged (`console.error`) and execution continues. -/
def approveAttemptEvents (issue : AllowanceIssue) (r : Except String String) :
    List ScriptEvent :=
  match r with
  | .ok _ => [ScriptEvent.approveTxReq wethAddr issue.spender maxUint256]
  | .error _ => [ScriptEvent.approveTxReq wethAddr issue.spender maxUint256,
                 ScriptEvent.logApproveErrorOut]

/-- `mainExecution` (`index.ts` lines 122–212): list liquidity sources,
read the WETH decimals, fetch a price (with affiliate-fee and
surplus-collection parameters), conditionally attempt the Permit2
approval, fetch a quote with the copied parameters, and print the derived
metrics.  An error in any awaited step other than the approval propagates
and ends the run. -/
def mainExecution (w : ScriptWorld) (taker : String) :
    Except String Unit × List ScriptEvent :=
  let ev1 := ScriptEvent.fetchSourcesReq scrollChainId
  match w.sourcesResult with
  | .error e => (.error e, [ev1])
  | .ok _ =>
    let ev2 := ScriptEvent.readDecimalsReq wethAddr
    match w.decimalsResult with
    | .error e => (.error e, [ev1, ev2])
    | .ok d =>
      let sellAmt := amountToSell d
      let ev3 := ScriptEvent.fetchPriceReq (priceQueryParams taker sellAmt)
      match w.priceResult with
      | .error e => (.error e, [ev1, ev2, ev3])
      | .ok price =>
        let apprEvs :=
          match price.allowanceIssue with
          | some issue => approveAttemptEvents issue w.approveResult
          | none => []
        let ev5 := ScriptEvent.fetchQuoteReq (quoteQueryParams taker sellAmt)
        match w.quoteResult with
        | .error e => (.error e, [ev1, ev2, ev3] ++ apprEvs ++ [ev5])
        | .ok _ => (.ok (), [ev1, ev2, ev3] ++ apprEvs ++ [ev5, ScriptEvent.printMetricsOut])

/-- The three required environment variables read at startup. -/
structure ScriptConfig where
  privateKey : Option String
  zeroExApiKey : Option String
  alchemyUrl : Option String

/-- JavaScript falsiness of an environment variable: absent or empty. -/
def isFalsy : Option String → Bool
  | none => true
  | some s => s = ""

/-- The script's module-level run (`index.ts` top level): the three
configuration checks throw before the wallet client is built and
`getAddresses` is called, which in turn precede `mainExecution`. -/
def runScript (c : ScriptConfig) (w : ScriptWorld) (taker : String) :
    Except String Unit × List ScriptEvent :=
  if isFalsy c.privateKey then (.error "Error: PRIVATE_KEY is not defined.", [])
  else if isFalsy c.zeroExApiKey then (.error "Error: ZERO_EX_API_KEY is not defined.", [])
  else if isFalsy c.alchemyUrl then
    (.error "Error: ALCHEMY_HTTP_TRANSPORT_URL is not defined.", [])
  else
    let (r, evs) := mainExecution w taker
    (r, ScriptEvent.walletGetAddresses :: evs)

/-- One liquidity fill of a quote route (`route.fills` entries). -/
structure Fill where
  source : String
  proportionBps : Nat
deriving DecidableEq, Repr

/-- `printLiquidityBreakdown` (`index.ts` lines 69–81): computes the total
basis points of the route's fills, prints a count header, and prints each
source with `proportionBps / 100` as its percentage.  The output is the
header count together with the printed (source, percentage) lines; the
computed total appears in no printed line. -/
def printLiquidityBreakdown (fills : List Fill) : Nat × List (String × ℚ) :=
  let totalBps := fills.foldl (fun total f => total + f.proportionBps) 0
  let _ := totalBps
  (fills.length, fills.map (fun f => (f.source, (f.proportionBps : ℚ) / 100)))


/-! ## Concrete demonstration instances (the spec §8 scenarios) -/

def demoEnv : ExchangeEnv :=
  { routerAddr := 3, contractAddr := 2, blockTimestamp := 1000,
    quote := fun _ => 97, approveRefused := fun _ => false }

def demoEnvLow : ExchangeEnv := { demoEnv with quote := fun _ => 90 }

def demoEnvRefuse : ExchangeEnv := { demoEnv with approveRefused := fun _ => true }

def demoState : ChainState :=
  { balances := fun t a => if t = 10 ∧ a = 1 then 100 else if t = 11 ∧ a = 3 then 1000 else 0,
    allowances := fun t o sp => if t = 10 ∧ o = 1 ∧ sp = 2 then 100 else 0 }

def demoPriceResp : PriceResp := { allowanceIssue := some { spender := "0xPermit2" } }

def demoWorld : ScriptWorld :=
  { sourcesResult := .ok ["Venue"], decimalsResult := .ok 18,
    priceResult := .ok demoPriceResp,
    approveResult := .ok "0xhash", quoteResult := .ok () }

def demoWorldApproveFail : ScriptWorld := { demoWorld with approveResult := .error "denied" }

def demoWorldSourcesFail : ScriptWorld := { demoWorld with sourcesResult := .error "http 500" }

def demoWorldDecimalsFail : ScriptWorld := { demoWorld with decimalsResult := .error "rpc down" }

def demoWorldPriceFail : ScriptWorld := { demoWorld with priceResult := .error "http 500" }

def demoWorldQuoteFail : ScriptWorld := { demoWorld with quoteResult := .error "http 429" }

def demoConfigMissing : ScriptConfig :=
  { privateKey := some "ab", zeroExApiKey := none, alchemyUrl := some "https://rpc.example" }


/-! ## Theorems -/

/-- C3: for every call to `exchange` where the caller's pre-authorized
allowance to the contract is below `inputAmount` (so the token's
`transferFrom` reports failure), the call fails with reason
"Token transfer failed" and the observable post-state is exactly the
pre-call state: no balance or allowance changes. -/
theorem exchange_transfer_failed
    (env : ExchangeEnv) (s : ChainState)
    (msgSender inputToken outputToken receiver : Address) (inputAmount minOutput : Nat)
    (hAllow : s.allowances inputToken msgSender env.contractAddr < inputAmount) :
    (TokenExchange.exchange env s msgSender inputToken outputToken inputAmount minOutput
        receiver).1 = .error "Token transfer failed"
      ∧ exchangePost env s msgSender inputToken outputToken inputAmount minOutput receiver
          = s := by
  have hno : ¬(inputAmount ≤ s.allowances inputToken msgSender env.contractAddr
      ∧ inputAmount ≤ s.balances inputToken msgSender) := by
    intro h
    exact absurd h.1 (Nat.not_le.mpr hAllow)
  constructor
  · simp [TokenExchange.exchange, erc20TransferFrom, hno]
  · simp [exchangePost, TokenExchange.exchange, erc20TransferFrom, hno]

/-- C4: in every successful execution of `exchange`, the router's
exact-input single-hop swap is invoked exactly once, with fee tier 3000,
the caller-supplied `receiver` as recipient, price limit 0, deadline
equal to the current block timestamp, and `inputAmount` and `minOutput`
passed through unchanged. -/
theorem exchange_success_trace
    (env : ExchangeEnv) (s : ChainState)
    (msgSender inputToken outputToken receiver : Address) (inputAmount minOutput : Nat)
    (h : (TokenExchange.exchange env s msgSender inputToken outputToken inputAmount
        minOutput receiver).1.isOk = true) :
    (TokenExchange.exchange env s msgSender inputToken outputToken inputAmount minOutput
        receiver).2 =
      [ExtEvent.transferFromCall inputToken msgSender env.contractAddr inputAmount,
       ExtEvent.approveCall inputToken env.routerAddr inputAmount,
       ExtEvent.swapCall
         { tokenFrom := inputToken
           tokenTo := outputToken
           feeRate := 3000
           recipient := receiver
           deadline := env.blockTimestamp
           inputAmount := inputAmount
           minOutputAmount := minOutput
           priceLimit := 0 }] := by
  unfold TokenExchange.exchange at h ⊢
  split at h
  · simp [Except.isOk, Except.toBool] at h
  · split at h
    · simp [Except.isOk, Except.toBool] at h
    · dsimp only at h ⊢
      split
      · rfl
      · split <;> rfl

/-- C1: for every call to `exchange` where the caller's pre-authorized
allowance (and balance) covers `inputAmount` and the external router
returns an output `out ≥ minOutput`, the call succeeds, the receiver's
output-token balance increases by exactly `out`, the caller's input-token
balance decreases by exactly `inputAmount`, and the contract's own
input-token balance returns to its pre-call value. -/
theorem exchange_success_balances
    (env : ExchangeEnv) (s : ChainState)
    (msgSender inputToken outputToken receiver : Address) (inputAmount minOutput out : Nat)
    (hTok : inputToken ≠ outputToken)
    (hMX : msgSender ≠ env.contractAddr)
    (hMR : msgSender ≠ env.routerAddr)
    (hXR : env.contractAddr ≠ env.routerAddr)
    (hRV : env.routerAddr ≠ receiver)
    (hApp : env.approveRefused inputToken = false)
    (hAllow : inputAmount ≤ s.allowances inputToken msgSender env.contractAddr)
    (hBal : inputAmount ≤ s.balances inputToken msgSender)
    (hQuote : env.quote
      { tokenFrom := inputToken
        tokenTo := outputToken
        feeRate := 3000
        recipient := receiver
        deadline := env.blockTimestamp
        inputAmount := inputAmount
        minOutputAmount := minOutput
        priceLimit := 0 } = out)
    (hReserve : out ≤ s.balances outputToken env.routerAddr)
    (hMin : minOutput ≤ out) :
    ∃ s', (TokenExchange.exchange env s msgSender inputToken outputToken inputAmount
        minOutput receiver).1 = .ok s'
      ∧ s'.balances outputToken receiver = s.balances outputToken receiver + out
      ∧ s'.balances inputToken msgSender + inputAmount = s.balances inputToken msgSender
      ∧ s'.balances inputToken env.contractAddr = s.balances inputToken env.contractAddr := by
  simp only [TokenExchange.exchange, erc20TransferFrom, erc20Approve, swapExactInputSingle,
    erc20Transfer, updBal, updAllow, hApp, hQuote, hMX, Ne.symm hMX, hMR, Ne.symm hMR,
    hXR, Ne.symm hXR, hRV, Ne.symm hRV, hTok, Ne.symm hTok, hAllow, hBal, hMin,
    if_pos, if_neg, and_true, true_and, and_false, false_and, if_true, if_false,
    le_refl, Nat.le_add_left, Nat.add_sub_cancel, hReserve,
    Bool.false_eq_true, ite_true, ite_false, reduceIte]
  refine ⟨_, rfl, ?_, ?_, ?_⟩ <;>
    (simp [updBal, hTok, Ne.symm hTok, hMX, Ne.symm hMX, hMR, Ne.symm hMR, hXR, Ne.symm hXR,
      hRV, Ne.symm hRV]
     try omega)

/-- C2: for every call to `exchange` where the router returns an output
amount strictly below `minOutput`, the call reverts with reason
"Insufficient output" and the observable post-state is exactly the
pre-call state: no token balance of any party changes. -/
theorem exchange_insufficient_output
    (env : ExchangeEnv) (s : ChainState)
    (msgSender inputToken outputToken receiver : Address) (inputAmount minOutput out : Nat)
    (hTok : inputToken ≠ outputToken)
    (hMX : msgSender ≠ env.contractAddr)
    (hApp : env.approveRefused inputToken = false)
    (hAllow : inputAmount ≤ s.allowances inputToken msgSender env.contractAddr)
    (hBal : inputAmount ≤ s.balances inputToken msgSender)
    (hQuote : env.quote
      { tokenFrom := inputToken
        tokenTo := outputToken
        feeRate := 3000
        recipient := receiver
        deadline := env.blockTimestamp
        inputAmount := inputAmount
        minOutputAmount := minOutput
        priceLimit := 0 } = out)
    (hReserve : out ≤ s.balances outputToken env.routerAddr)
    (hMin : out < minOutput) :
    (TokenExchange.exchange env s msgSender inputToken outputToken inputAmount minOutput
        receiver).1 = .error "Insufficient output"
      ∧ exchangePost env s msgSender inputToken outputToken inputAmount minOutput receiver
          = s := by
  have hM : ¬ (minOutput ≤ out) := Nat.not_le.mpr hMin
  constructor
  · simp only [TokenExchange.exchange, erc20TransferFrom, erc20Approve, swapExactInputSingle,
      erc20Transfer, updBal, updAllow, hApp, hQuote, hMX, Ne.symm hMX, hTok, Ne.symm hTok,
      hAllow, hBal, hM,
      if_pos, if_neg, and_true, true_and, and_false, false_and, if_true, if_false,
      le_refl, Nat.le_add_left, Nat.add_sub_cancel, hReserve,
      Bool.false_eq_true, ite_true, ite_false, reduceIte]
  · simp only [exchangePost, TokenExchange.exchange, erc20TransferFrom, erc20Approve,
      swapExactInputSingle, erc20Transfer, updBal, updAllow, hApp, hQuote, hMX, Ne.symm hMX,
      hTok, Ne.symm hTok, hAllow, hBal, hM,
      if_pos, if_neg, and_true, true_and, and_false, false_and, if_true, if_false,
      le_refl, Nat.le_add_left, Nat.add_sub_cancel, hReserve,
      Bool.false_eq_true, ite_true, ite_false, reduceIte]

/-- C5: in every call to `exchange` that gets past the initial token
pull, the contract issues exactly one approval, granting the router an
allowance of exactly `inputAmount` over the input token (every approve
call in the trace has that token, that spender and that amount); and if
the token refuses the approval, the call fails with reason
"Approval failed" and no state change persists. -/
theorem exchange_approval_exact
    (env : ExchangeEnv) (s : ChainState)
    (msgSender inputToken outputToken receiver : Address) (inputAmount minOutput : Nat)
    (hAllow : inputAmount ≤ s.allowances inputToken msgSender env.contractAddr)
    (hBal : inputAmount ≤ s.balances inputToken msgSender) :
    ExtEvent.approveCall inputToken env.routerAddr inputAmount ∈
        (TokenExchange.exchange env s msgSender inputToken outputToken inputAmount minOutput
          receiver).2
      ∧ (∀ t sp a, ExtEvent.approveCall t sp a ∈
          (TokenExchange.exchange env s msgSender inputToken outputToken inputAmount minOutput
            receiver).2 → t = inputToken ∧ sp = env.routerAddr ∧ a = inputAmount)
      ∧ (env.approveRefused inputToken = true →
          (TokenExchange.exchange env s msgSender inputToken outputToken inputAmount minOutput
              receiver).1 = .error "Approval failed"
            ∧ exchangePost env s msgSender inputToken outputToken inputAmount minOutput
                receiver = s) := by
  have hc : inputAmount ≤ s.allowances inputToken msgSender env.contractAddr
      ∧ inputAmount ≤ s.balances inputToken msgSender := ⟨hAllow, hBal⟩
  refine ⟨?_, ?_, ?_⟩
  · unfold TokenExchange.exchange
    rw [erc20TransferFrom, if_pos hc]
    dsimp only
    split
    · simp
    · split
      · simp
      · split <;> simp
  · intro t sp a
    unfold TokenExchange.exchange
    rw [erc20TransferFrom, if_pos hc]
    dsimp only
    split
    · simp
    · split
      · simp
      · split <;> simp
  · intro hRef
    constructor
    · unfold TokenExchange.exchange
      rw [erc20TransferFrom, if_pos hc]
      dsimp only
      rw [erc20Approve, hRef]
      simp
    · unfold exchangePost TokenExchange.exchange
      rw [erc20TransferFrom, if_pos hc]
      dsimp only
      rw [erc20Approve, hRef]
      simp

/-- Appending every element of a list to an accumulator reproduces the
list after the accumulator. -/
theorem foldl_append_singleton (l : List (String × String)) (acc : List (String × String)) :
    l.foldl (fun acc kv => acc ++ [kv]) acc = acc ++ l := by
  induction l generalizing acc with
  | nil => simp
  | cons kv tl ih => simp [List.foldl_cons, ih]

/-- The copy loop of `index.ts` makes the quote request's parameters
identical to the price request's. -/
theorem quoteQueryParams_eq (taker : String) (sellAmount : Nat) :
    quoteQueryParams taker sellAmount = priceQueryParams taker sellAmount := by
  unfold quoteQueryParams
  rw [foldl_append_singleton]
  simp

/-- C6: every completed run of the script performs its external
interactions strictly in sequence — liquidity-venue listing, decimals
lookup, price request (carrying the affiliate-fee and surplus-collection
parameters), conditional allowance grant, quote request, metric printing
— and the quote request carries exactly the same query parameters as the
price request. -/
theorem script_sequence
    (w : ScriptWorld) (taker : String) (srcs : List String) (d : Nat) (pr : PriceResp)
    (hS : w.sourcesResult = .ok srcs) (hD : w.decimalsResult = .ok d)
    (hP : w.priceResult = .ok pr) (hQ : w.quoteResult = .ok ()) :
    (mainExecution w taker).2 =
        [ScriptEvent.fetchSourcesReq scrollChainId,
         ScriptEvent.readDecimalsReq wethAddr,
         ScriptEvent.fetchPriceReq (priceQueryParams taker (amountToSell d))]
        ++ (match pr.allowanceIssue with
            | some issue => approveAttemptEvents issue w.approveResult
            | none => [])
        ++ [ScriptEvent.fetchQuoteReq (quoteQueryParams taker (amountToSell d)),
            ScriptEvent.printMetricsOut]
      ∧ quoteQueryParams taker (amountToSell d) = priceQueryParams taker (amountToSell d)
      ∧ ("affiliateFee", "100") ∈ priceQueryParams taker (amountToSell d)
      ∧ ("surplusCollection", "true") ∈ priceQueryParams taker (amountToSell d) := by
  refine ⟨?_, quoteQueryParams_eq taker (amountToSell d), ?_, ?_⟩
  · simp [mainExecution, hS, hD, hP, hQ]
  · simp [priceQueryParams]
  · simp [priceQueryParams]

/-- C7: whenever the price response contains a non-null allowance issue,
an approval transaction is attempted before the quote request is issued;
if that approval fails, the failure is caught and logged and the script
still issues the quote request; a failure in any other step (sources,
decimals, price, quote) propagates and aborts the remaining sequence. -/
theorem script_approval_and_aborts (w : ScriptWorld) (taker : String) :
    (∀ srcs d pr issue, w.sourcesResult = .ok srcs → w.decimalsResult = .ok d →
        w.priceResult = .ok pr → pr.allowanceIssue = some issue →
        ∃ l, (mainExecution w taker).2 =
            [ScriptEvent.fetchSourcesReq scrollChainId,
             ScriptEvent.readDecimalsReq wethAddr,
             ScriptEvent.fetchPriceReq (priceQueryParams taker (amountToSell d)),
             ScriptEvent.approveTxReq wethAddr issue.spender maxUint256] ++ l
          ∧ ScriptEvent.fetchQuoteReq (quoteQueryParams taker (amountToSell d)) ∈ l)
    ∧ (∀ srcs d pr issue e, w.sourcesResult = .ok srcs → w.decimalsResult = .ok d →
        w.priceResult = .ok pr → pr.allowanceIssue = some issue →
        w.approveResult = .error e →
        ScriptEvent.logApproveErrorOut ∈ (mainExecution w taker).2
          ∧ ScriptEvent.fetchQuoteReq (quoteQueryParams taker (amountToSell d)) ∈
              (mainExecution w taker).2)
    ∧ (∀ e, w.sourcesResult = .error e →
        (mainExecution w taker).1 = .error e
          ∧ (mainExecution w taker).2 = [ScriptEvent.fetchSourcesReq scrollChainId])
    ∧ (∀ srcs e, w.sourcesResult = .ok srcs → w.decimalsResult = .error e →
        (mainExecution w taker).1 = .error e
          ∧ (mainExecution w taker).2 = [ScriptEvent.fetchSourcesReq scrollChainId,
              ScriptEvent.readDecimalsReq wethAddr])
    ∧ (∀ srcs d e, w.sourcesResult = .ok srcs → w.decimalsResult = .ok d →
        w.priceResult = .error e →
        (mainExecution w taker).1 = .error e
          ∧ (mainExecution w taker).2 = [ScriptEvent.fetchSourcesReq scrollChainId,
              ScriptEvent.readDecimalsReq wethAddr,
              ScriptEvent.fetchPriceReq (priceQueryParams taker (amountToSell d))])
    ∧ (∀ srcs d pr e, w.sourcesResult = .ok srcs → w.decimalsResult = .ok d →
        w.priceResult = .ok pr → w.quoteResult = .error e →
        (mainExecution w taker).1 = .error e
          ∧ ScriptEvent.printMetricsOut ∉ (mainExecution w taker).2) := by
  refine ⟨?_, ?_, ?_, ?_, ?_, ?_⟩
  · intro srcs d pr issue hS hD hP hI
    rcases hA : w.approveResult with e | h
    · rcases hQ : w.quoteResult with e' | u
      · exact ⟨[ScriptEvent.logApproveErrorOut,
          ScriptEvent.fetchQuoteReq (quoteQueryParams taker (amountToSell d))],
          by simp [mainExecution, hS, hD, hP, hI, hA, hQ, approveAttemptEvents], by simp⟩
      · exact ⟨[ScriptEvent.logApproveErrorOut,
          ScriptEvent.fetchQuoteReq (quoteQueryParams taker (amountToSell d)),
          ScriptEvent.printMetricsOut],
          by simp [mainExecution, hS, hD, hP, hI, hA, hQ, approveAttemptEvents], by simp⟩
    · rcases hQ : w.quoteResult with e' | u
      · exact ⟨[ScriptEvent.fetchQuoteReq (quoteQueryParams taker (amountToSell d))],
          by simp [mainExecution, hS, hD, hP, hI, hA, hQ, approveAttemptEvents], by simp⟩
      · exact ⟨[ScriptEvent.fetchQuoteReq (quoteQueryParams taker (amountToSell d)),
          ScriptEvent.printMetricsOut],
          by simp [mainExecution, hS, hD, hP, hI, hA, hQ, approveAttemptEvents], by simp⟩
  · intro srcs d pr issue e hS hD hP hI hA
    rcases hQ : w.quoteResult with e' | u <;>
      constructor <;> simp [mainExecution, hS, hD, hP, hI, hA, hQ, approveAttemptEvents]
  · intro e hS
    exact ⟨by simp [mainExecution, hS], by simp [mainExecution, hS]⟩
  · intro srcs e hS hD
    exact ⟨by simp [mainExecution, hS, hD], by simp [mainExecution, hS, hD]⟩
  · intro srcs d e hS hD hP
    exact ⟨by simp [mainExecution, hS, hD, hP], by simp [mainExecution, hS, hD, hP]⟩
  · intro srcs d pr e hS hD hP hQ
    constructor
    · simp [mainExecution, hS, hD, hP, hQ]
    · rcases hI : pr.allowanceIssue with _ | issue <;>
        rcases hA : w.approveResult with e' | h <;>
        simp [mainExecution, hS, hD, hP, hQ, hI, hA, approveAttemptEvents]

/-- C8: if any of the three required configuration values (private
signing key, API key, RPC endpoint URL) is absent, the script fails at
startup with an error before performing any network request or wallet
operation (the event trace is empty). -/
theorem script_config_guard (c : ScriptConfig) (w : ScriptWorld) (taker : String)
    (h : c.privateKey = none ∨ c.zeroExApiKey = none ∨ c.alchemyUrl = none) :
    (runScript c w taker).2 = [] ∧ ∃ e, (runScript c w taker).1 = .error e := by
  unfold runScript
  split
  · exact ⟨rfl, _, rfl⟩
  · split
    · exact ⟨rfl, _, rfl⟩
    · split
      · exact ⟨rfl, _, rfl⟩
      · exfalso
        rcases h with h | h | h <;> simp_all [isFalsy]

/-- C9: when the price response indicates an allowance is required, the
approval the script submits grants the spender named in the response the
maximum uint256 value — an unlimited allowance, strictly larger than the
0.1-WETH sell amount — whereas the settlement contract's approve calls
always carry exactly `inputAmount`. -/
theorem script_unlimited_approval
    (w : ScriptWorld) (taker : String) (srcs : List String) (d : Nat) (pr : PriceResp)
    (issue : AllowanceIssue)
    (hS : w.sourcesResult = .ok srcs) (hD : w.decimalsResult = .ok d)
    (hP : w.priceResult = .ok pr) (hI : pr.allowanceIssue = some issue) :
    ScriptEvent.approveTxReq wethAddr issue.spender maxUint256 ∈ (mainExecution w taker).2
      ∧ (∀ ta sp a, ScriptEvent.approveTxReq ta sp a ∈ (mainExecution w taker).2 →
          sp = issue.spender ∧ a = maxUint256)
      ∧ amountToSell 18 < maxUint256
      ∧ (∀ env s msgSender inputToken outputToken receiver inputAmount minOutput t sp a,
          ExtEvent.approveCall t sp a ∈ (TokenExchange.exchange env s msgSender inputToken
            outputToken inputAmount minOutput receiver).2 → a = inputAmount) := by
  refine ⟨?_, ?_, ?_, ?_⟩
  · rcases hA : w.approveResult with e | hsh <;> rcases hQ : w.quoteResult with e' | u <;>
      simp [mainExecution, hS, hD, hP, hI, hA, hQ, approveAttemptEvents]
  · intro ta sp a
    rcases hA : w.approveResult with e | hsh <;> rcases hQ : w.quoteResult with e' | u <;>
      simp [mainExecution, hS, hD, hP, hI, hA, hQ, approveAttemptEvents]
  · decide
  · intro env s msgSender inputToken outputToken receiver inputAmount minOutput t sp a
    unfold TokenExchange.exchange
    split
    · simp
    · split
      · simp
      · dsimp only
        split
        · simp
        · split <;> simp

/-- C10: `printLiquidityBreakdown` prints each liquidity source's
percentage as its own `proportionBps / 100`, independent of the computed
total (the output is a pure map over the fills), and the printed
percentages sum to 100 exactly when the basis points sum to 10000. -/
theorem breakdown_ignores_total (fills : List Fill) :
    printLiquidityBreakdown fills =
        (fills.length, fills.map (fun (f : Fill) => (f.source, (f.proportionBps : ℚ) / 100)))
      ∧ (((printLiquidityBreakdown fills).2.map Prod.snd).sum = 100 ↔
          (fills.map Fill.proportionBps).sum = 10000) := by
  have hsum : ∀ (l : List Fill), (l.map (fun (f : Fill) => ((f.proportionBps : ℚ) / 100))).sum
      = ((l.map Fill.proportionBps).sum : ℚ) / 100 := by
    intro l
    induction l with
    | nil => simp
    | cons f fs ih =>
      simp [ih]
      ring
  constructor
  · rfl
  · show ((fills.map (fun (f : Fill) => (f.source, (f.proportionBps : ℚ) / 100))).map
        Prod.snd).sum = 100 ↔ _
    rw [List.map_map]
    have : (Prod.snd ∘ fun (f : Fill) => (f.source, (f.proportionBps : ℚ) / 100))
        = fun (f : Fill) => ((f.proportionBps : ℚ) / 100) := rfl
    rw [this, hsum fills, div_eq_iff (by norm_num : (100 : ℚ) ≠ 0)]
    constructor
    · intro h
      exact_mod_cast h
    · intro h
      rw [h]
      norm_num

theorem exchange_success_balances_witness :
    (TokenExchange.exchange demoEnv demoState 1 10 11 100 95 4).1.isOk = true
      ∧ (exchangePost demoEnv demoState 1 10 11 100 95 4).balances 11 4 = 97
      ∧ (exchangePost demoEnv demoState 1 10 11 100 95 4).balances 10 1 = 0
      ∧ (exchangePost demoEnv demoState 1 10 11 100 95 4).balances 10 2 = 0 := by
  obtain ⟨s', hok, h1, h2, h3⟩ := exchange_success_balances demoEnv demoState 1 10 11 4 100 95 97
    (by decide) (by decide) (by decide) (by decide) (by decide) (by decide) (by decide)
    (by decide) (by decide) (by decide) (by decide)
  have hpost : exchangePost demoEnv demoState 1 10 11 100 95 4 = s' := by
    unfold exchangePost
    rw [hok]
  have e1 : demoState.balances 11 4 = 0 := by decide
  have e2 : demoState.balances 10 1 = 100 := by decide
  have e3 : demoState.balances 10 2 = 0 := by decide
  simp only [show demoEnv.contractAddr = 2 from rfl] at h3
  refine ⟨by rw [hok]; rfl, ?_, ?_, ?_⟩ <;> rw [hpost] <;> omega

theorem exchange_insufficient_output_witness :
    (TokenExchange.exchange demoEnvLow demoState 1 10 11 100 95 4).1 =
        .error "Insufficient output"
      ∧ exchangePost demoEnvLow demoState 1 10 11 100 95 4 = demoState :=
  exchange_insufficient_output demoEnvLow demoState 1 10 11 4 100 95 90
    (by decide) (by decide) (by decide) (by decide) (by decide) (by decide) (by decide)
    (by decide)

theorem exchange_transfer_failed_witness :
    (TokenExchange.exchange demoEnv demoState 1 10 11 101 95 4).1 =
        .error "Token transfer failed"
      ∧ exchangePost demoEnv demoState 1 10 11 101 95 4 = demoState :=
  exchange_transfer_failed demoEnv demoState 1 10 11 4 101 95 (by decide)

theorem exchange_success_trace_witness :
    (TokenExchange.exchange demoEnv demoState 1 10 11 100 95 4).2 =
      [ExtEvent.transferFromCall 10 1 demoEnv.contractAddr 100,
       ExtEvent.approveCall 10 demoEnv.routerAddr 100,
       ExtEvent.swapCall
         { tokenFrom := 10
           tokenTo := 11
           feeRate := 3000
           recipient := 4
           deadline := demoEnv.blockTimestamp
           inputAmount := 100
           minOutputAmount := 95
           priceLimit := 0 }] :=
  exchange_success_trace demoEnv demoState 1 10 11 4 100 95 (by decide)

theorem exchange_approval_exact_witness :
    ExtEvent.approveCall 10 demoEnvRefuse.routerAddr 100 ∈
        (TokenExchange.exchange demoEnvRefuse demoState 1 10 11 100 95 4).2
      ∧ (TokenExchange.exchange demoEnvRefuse demoState 1 10 11 100 95 4).1 =
          .error "Approval failed"
      ∧ exchangePost demoEnvRefuse demoState 1 10 11 100 95 4 = demoState := by
  obtain ⟨h1, h2, h3⟩ := exchange_approval_exact demoEnvRefuse demoState 1 10 11 4 100 95
    (by decide) (by decide)
  exact ⟨h1, (h3 (by decide)).1, (h3 (by decide)).2⟩

theorem script_sequence_witness :
    (mainExecution demoWorld "0xTaker").2 =
        [ScriptEvent.fetchSourcesReq scrollChainId,
         ScriptEvent.readDecimalsReq wethAddr,
         ScriptEvent.fetchPriceReq (priceQueryParams "0xTaker" (amountToSell 18))]
        ++ (match demoPriceResp.allowanceIssue with
            | some issue => approveAttemptEvents issue demoWorld.approveResult
            | none => [])
        ++ [ScriptEvent.fetchQuoteReq (quoteQueryParams "0xTaker" (amountToSell 18)),
            ScriptEvent.printMetricsOut]
      ∧ quoteQueryParams "0xTaker" (amountToSell 18) =
          priceQueryParams "0xTaker" (amountToSell 18)
      ∧ ("affiliateFee", "100") ∈ priceQueryParams "0xTaker" (amountToSell 18)
      ∧ ("surplusCollection", "true") ∈ priceQueryParams "0xTaker" (amountToSell 18) :=
  script_sequence demoWorld "0xTaker" ["Venue"] 18 demoPriceResp rfl rfl rfl rfl

theorem script_approval_and_aborts_witness :
    (ScriptEvent.logApproveErrorOut ∈ (mainExecution demoWorldApproveFail "0xTaker").2
      ∧ ScriptEvent.fetchQuoteReq (quoteQueryParams "0xTaker" (amountToSell 18)) ∈
          (mainExecution demoWorldApproveFail "0xTaker").2)
    ∧ ScriptEvent.approveTxReq wethAddr "0xPermit2" maxUint256 ∈
        (mainExecution demoWorldApproveFail "0xTaker").2
    ∧ ((mainExecution demoWorldSourcesFail "0xTaker").1 = .error "http 500"
      ∧ (mainExecution demoWorldSourcesFail "0xTaker").2 =
          [ScriptEvent.fetchSourcesReq scrollChainId])
    ∧ ((mainExecution demoWorldDecimalsFail "0xTaker").1 = .error "rpc down"
      ∧ (mainExecution demoWorldDecimalsFail "0xTaker").2 =
          [ScriptEvent.fetchSourcesReq scrollChainId, ScriptEvent.readDecimalsReq wethAddr])
    ∧ ((mainExecution demoWorldPriceFail "0xTaker").1 = .error "http 500"
      ∧ (mainExecution demoWorldPriceFail "0xTaker").2 =
          [ScriptEvent.fetchSourcesReq scrollChainId, ScriptEvent.readDecimalsReq wethAddr,
           ScriptEvent.fetchPriceReq (priceQueryParams "0xTaker" (amountToSell 18))])
    ∧ ((mainExecution demoWorldQuoteFail "0xTaker").1 = .error "http 429"
      ∧ ScriptEvent.printMetricsOut ∉ (mainExecution demoWorldQuoteFail "0xTaker").2) := by
  refine ⟨?_, ?_, ?_, ?_, ?_, ?_⟩
  · exact (script_approval_and_aborts demoWorldApproveFail "0xTaker").2.1 ["Venue"] 18
      demoPriceResp ⟨"0xPermit2"⟩ "denied" rfl rfl rfl rfl rfl
  · obtain ⟨l, htr, hmem⟩ := (script_approval_and_aborts demoWorldApproveFail "0xTaker").1
      ["Venue"] 18 demoPriceResp ⟨"0xPermit2"⟩ rfl rfl rfl rfl
    rw [htr]
    exact List.mem_append.mpr (Or.inl (by simp))
  · exact (script_approval_and_aborts demoWorldSourcesFail "0xTaker").2.2.1 "http 500" rfl
  · exact (script_approval_and_aborts demoWorldDecimalsFail "0xTaker").2.2.2.1 ["Venue"]
      "rpc down" rfl rfl
  · exact (script_approval_and_aborts demoWorldPriceFail "0xTaker").2.2.2.2.1 ["Venue"] 18
      "http 500" rfl rfl rfl
  · exact (script_approval_and_aborts demoWorldQuoteFail "0xTaker").2.2.2.2.2 ["Venue"] 18
      demoPriceResp "http 429" rfl rfl rfl rfl

theorem script_config_guard_witness :
    (runScript demoConfigMissing demoWorld "0xTaker").2 = []
      ∧ (runScript demoConfigMissing demoWorld "0xTaker").1.isOk = false := by
  obtain ⟨htr, e, he⟩ := script_config_guard demoConfigMissing demoWorld "0xTaker"
    (Or.inr (Or.inl rfl))
  exact ⟨htr, by rw [he]; rfl⟩

theorem script_unlimited_approval_witness :
    ScriptEvent.approveTxReq wethAddr "0xPermit2" maxUint256 ∈
        (mainExecution demoWorld "0xTaker").2
      ∧ amountToSell 18 < maxUint256 :=
  ⟨(script_unlimited_approval demoWorld "0xTaker" ["Venue"] 18 demoPriceResp ⟨"0xPermit2"⟩
      rfl rfl rfl rfl).1,
   (script_unlimited_approval demoWorld "0xTaker" ["Venue"] 18 demoPriceResp ⟨"0xPermit2"⟩
      rfl rfl rfl rfl).2.2.1⟩
